import Mathlib

/-!
Verification development for the istio gateway translation controller,
the memory service-discovery registry, and the httprequest helper.

The translation layer (facade `List`, binding resolver, gateway and route
synthesizers) is exercised by its tests; its implementation is modelled
from the specification where the implementation file is not available.
The `memory` package and the `httprequest` package are embedded directly
from their source.
-/

namespace Istio

/-- GroupVersionKind identifies a configuration resource kind, as in
`pkg/config`. -/
structure GroupVersionKind where
  group : String
  version : String
  kind : String
deriving DecidableEq, Repr

/-- Modelled from the spec: the mesh-native Gateway output kind
(`gvk.Gateway`). -/
def gvkGateway : GroupVersionKind :=
  { group := "networking.istio.io", version := "v1alpha3", kind := "Gateway" }

/-- Modelled from the spec: the mesh-native VirtualService output kind
(`gvk.VirtualService`). -/
def gvkVirtualService : GroupVersionKind :=
  { group := "networking.istio.io", version := "v1alpha3", kind := "VirtualService" }

/-- Modelled from the spec: the service-apis HTTPRoute input kind
(`gvk.HTTPRoute`). -/
def gvkHTTPRoute : GroupVersionKind :=
  { group := "networking.x-k8s.io", version := "v1alpha1", kind := "HTTPRoute" }

/-- Modelled from the spec: the well-known identity string of this
controller (`ControllerName`), matched against `GatewayClassSpec.Controller`. -/
def ControllerName : String := "istio.io/gateway-controller"

/-- Modelled from the spec: the fixed suffix marking auto-generated
mesh-native resources (`constants.KubernetesGatewayName`); the tests expect
derived names such as `gwspec-istio-autogenerated-k8s-gateway`. -/
def KubernetesGatewayName : String := "istio-autogenerated-k8s-gateway"

/-- A GatewayClass object: identifies a controller implementation. -/
structure GatewayClassObj where
  name : String
  namespaceName : String
  controllerName : String
deriving DecidableEq, Repr

/-- Namespace selection mode of a listener route binding
(`RouteNamespaces.From`). -/
inductive RouteSelect where
  | selectAll
  | selectSame
  | selector
deriving DecidableEq, Repr

/-- A listener of a service-apis Gateway: port, protocol and route binding
policy (`svc.Listener` with its `RouteBindingSelector`). -/
structure Listener where
  port : Nat
  protocol : String
  routeNamespaces : RouteSelect
  routeGroup : String
  routeKind : String
deriving DecidableEq, Repr

/-- A service-apis Gateway object: a class reference plus an ordered
listener sequence. -/
structure GatewayObj where
  name : String
  namespaceName : String
  gatewayClassName : String
  listeners : List Listener
deriving DecidableEq, Repr

/-- Gateway attachment policy of an HTTPRoute (`RouteGateways`): allow all
gateways, or an explicit gateway name list. -/
inductive RouteGateways where
  | allowAll
  | fromList (names : List String)
deriving DecidableEq, Repr

/-- Modelled from the spec: one routing rule of an HTTPRoute; the
per-rule match and action payloads are carried opaquely. -/
structure HTTPRouteRule where
  ruleMatches : List String
  action : String
deriving DecidableEq, Repr

/-- A service-apis HTTPRoute object: attachment policy, hostnames, rules. -/
structure HTTPRouteObj where
  name : String
  namespaceName : String
  attachment : RouteGateways
  hostnames : List String
  rules : List HTTPRouteRule
deriving DecidableEq, Repr

/-- Port of a synthesized mesh-native Server (`networking.Port`). -/
structure ServerPort where
  number : Nat
  name : String
  protocol : String
deriving DecidableEq, Repr

/-- A Server of a synthesized mesh-native Gateway (`networking.Server`). -/
structure Server where
  port : ServerPort
  hosts : List String
deriving DecidableEq, Repr

/-- A synthesized mesh-native Gateway payload (`networking.Gateway`). -/
structure SynthGateway where
  servers : List Server
  selector : List (String × String)
deriving DecidableEq, Repr

/-- A synthesized mesh-native VirtualService payload
(`networking.VirtualService`); `http` holds the translated rules. -/
structure SynthVirtualService where
  hosts : List String
  gateways : List String
  http : List HTTPRouteRule
deriving DecidableEq, Repr

/-- Payload of a returned configuration object: one of the two synthesized
output kinds. -/
inductive ConfigSpec where
  | gw (g : SynthGateway)
  | vs (v : SynthVirtualService)
deriving DecidableEq, Repr

/-- A returned configuration object (`config.Config`): kind, metadata and
payload. -/
structure ConfigObj where
  gvk : GroupVersionKind
  name : String
  namespaceName : String
  spec : ConfigSpec
deriving DecidableEq, Repr

/-- The resource store snapshot visible to one `List` call: the raw
service-apis input objects, listed in stable store order. -/
structure ConfigStore where
  gatewayClasses : List GatewayClassObj
  gateways : List GatewayObj
  httpRoutes : List HTTPRouteObj
deriving DecidableEq, Repr

/-- Namespace scoping of a store listing: the empty namespace means all
namespaces. -/
def inNamespace (ns : String) (objNs : String) : Bool :=
  ns == "" || objNs == ns

/-- Modelled from the spec: whether a GatewayClass is owned by this
controller, that is its controller name equals `ControllerName`. -/
def classOwned (c : GatewayClassObj) : Bool :=
  c.controllerName == ControllerName

/-- Modelled from the spec: whether a Gateway resolves to a retained
(controller-owned) GatewayClass of the store; classes are cluster scoped. -/
def gatewayResolves (s : ConfigStore) (g : GatewayObj) : Bool :=
  s.gatewayClasses.any (fun c => classOwned c && c.name == g.gatewayClassName)

/-- Modelled from the spec: the binding resolver retained Gateway set —
the Gateways of the target namespace whose class reference resolves to a
controller-owned GatewayClass. -/
def retainedGateways (s : ConfigStore) (ns : String) : List GatewayObj :=
  s.gateways.filter (fun g => inNamespace ns g.namespaceName && gatewayResolves s g)

/-- Modelled from the spec: whether an HTTPRoute binds to a Gateway — the
attachment allows all gateways or names this one, and some listener
declares a compatible allowed group and kind. -/
def routeBoundToGateway (g : GatewayObj) (r : HTTPRouteObj) : Bool :=
  (match r.attachment with
    | RouteGateways.allowAll => true
    | RouteGateways.fromList names => names.contains g.name) &&
  g.listeners.any (fun l =>
    l.routeGroup == gvkHTTPRoute.group && l.routeKind == gvkHTTPRoute.kind)

/-- Modelled from the spec: derived name of a synthesized resource — the
source name, a dash, and the fixed auto-generated suffix. -/
def derivedName (sourceName : String) : String :=
  sourceName ++ "-" ++ KubernetesGatewayName

/-- Modelled from the spec: the fixed ingress workload selector attached
to every synthesized Gateway; a static convention, not derived from input. -/
def ingressSelector : List (String × String) :=
  [("istio", "ingressgateway")]

/-- Lowercasing of a protocol string, character by character (the Go
`strings.ToLower` on the ASCII protocol names). -/
def toLowerAscii (s : String) : String :=
  String.mk (s.data.map Char.toLower)

/-- Modelled from the spec: derived port name of a synthesized Server —
protocol lowercased, port, the literal `gateway`, source gateway name and
namespace, dash separated. -/
def serverPortName (g : GatewayObj) (l : Listener) : String :=
  toLowerAscii l.protocol ++ "-" ++ toString l.port ++ "-gateway-" ++
    g.name ++ "-" ++ g.namespaceName

/-- Modelled from the spec: one Server per source listener — port number
and protocol copied, derived port name, wildcard hosts. -/
def makeServer (g : GatewayObj) (l : Listener) : Server :=
  { port := { number := l.port, name := serverPortName g l, protocol := l.protocol },
    hosts := ["*"] }

/-- Modelled from the spec: the Gateway synthesizer payload — one Server
per listener in listener order, with the fixed ingress selector. -/
def synthesizeGateway (g : GatewayObj) : SynthGateway :=
  { servers := g.listeners.map (makeServer g), selector := ingressSelector }

/-- Modelled from the spec: the full synthesized Gateway configuration
object for one retained source Gateway. -/
def synthesizeGatewayConfig (g : GatewayObj) : ConfigObj :=
  { gvk := gvkGateway, name := derivedName g.name, namespaceName := g.namespaceName,
    spec := ConfigSpec.gw (synthesizeGateway g) }

/-- Modelled from the spec: translation of one HTTPRoute rule into one
mesh-native HTTP route entry. -/
def translateRule (rule : HTTPRouteRule) : HTTPRouteRule := rule

/-- Modelled from the spec: the Route synthesizer payload — hostnames
copied verbatim, one gateway reference `namespace/derivedGatewayName` per
bound Gateway, translated rules. -/
def synthesizeVirtualService (bound : List GatewayObj) (r : HTTPRouteObj) :
    SynthVirtualService :=
  { hosts := r.hostnames,
    gateways := bound.map (fun g => g.namespaceName ++ "/" ++ derivedName g.name),
    http := r.rules.map translateRule }

/-- Modelled from the spec: the full synthesized VirtualService
configuration object for one bound source HTTPRoute. -/
def synthesizeVirtualServiceConfig (bound : List GatewayObj) (r : HTTPRouteObj) :
    ConfigObj :=
  { gvk := gvkVirtualService, name := derivedName r.name,
    namespaceName := r.namespaceName,
    spec := ConfigSpec.vs (synthesizeVirtualService bound r) }

/-- Modelled from the spec: all synthesized Gateways of a namespace — one
per retained source Gateway, in store order. -/
def synthesizedGateways (s : ConfigStore) (ns : String) : List ConfigObj :=
  (retainedGateways s ns).map synthesizeGatewayConfig

/-- Modelled from the spec: all synthesized VirtualServices of a
namespace — one per HTTPRoute of the namespace bound to at least one
retained Gateway; unbound routes are dropped silently. -/
def synthesizedVirtualServices (s : ConfigStore) (ns : String) : List ConfigObj :=
  (s.httpRoutes.filter (fun r => inNamespace ns r.namespaceName)).filterMap
    (fun r =>
      let bound := (retainedGateways s ns).filter (fun g => routeBoundToGateway g r)
      if bound.isEmpty then none
      else some (synthesizeVirtualServiceConfig bound r))

/-- Modelled from the spec: the translation facade `List(outputType,
namespace)` — dispatches on the requested output kind and fails with an
error and an empty sequence on any other kind. The Go pair
`([]config.Config, error)` is embedded as a pair of the result list and an
optional error string. -/
def listConfigs (s : ConfigStore) (typ : GroupVersionKind) (ns : String) :
    List ConfigObj × Option String :=
  if typ = gvkGateway then (synthesizedGateways s ns, none)
  else if typ = gvkVirtualService then (synthesizedVirtualServices s ns, none)
  else ([], some ("unknown type: " ++ typ.kind))

/-- Modelled from the spec: `List` as a state transformer over the store,
making the read-only frame explicit — the call computes its result from
the snapshot and performs no writes. -/
def listConfigsState (s : ConfigStore) (typ : GroupVersionKind) (ns : String) :
    (List ConfigObj × Option String) × ConfigStore :=
  (listConfigs s typ ns, s)

/-- Adding one Gateway object to the store (a `Create` of a Gateway). -/
def addGateway (g : GatewayObj) (s : ConfigStore) : ConfigStore :=
  { s with gateways := g :: s.gateways }

/-- The test fixture GatewayClass `gwclass` in namespace `ns1` owned by
this controller (`gatewayClassSpec`). -/
def fixtureClass : GatewayClassObj :=
  { name := "gwclass", namespaceName := "ns1", controllerName := ControllerName }

/-- The test fixture Gateway `gwspec` in `ns1` referencing `gwclass`, with
one HTTP listener on port 9009 binding all HTTPRoutes (`gatewaySpec`). -/
def fixtureGateway : GatewayObj :=
  { name := "gwspec", namespaceName := "ns1", gatewayClassName := "gwclass",
    listeners := [{ port := 9009, protocol := "HTTP",
                    routeNamespaces := RouteSelect.selectAll,
                    routeGroup := gvkHTTPRoute.group,
                    routeKind := gvkHTTPRoute.kind }] }

/-- The test fixture HTTPRoute `http-route` in `ns1` with allow-all
attachment, one hostname and no rules (`httpRouteSpec`). -/
def fixtureRoute : HTTPRouteObj :=
  { name := "http-route", namespaceName := "ns1",
    attachment := RouteGateways.allowAll,
    hostnames := ["test.cluster.local"], rules := [] }

/-- The test fixture store holding exactly the single
GatewayClass/Gateway/HTTPRoute triple. -/
def fixtureStore : ConfigStore :=
  { gatewayClasses := [fixtureClass], gateways := [fixtureGateway],
    httpRoutes := [fixtureRoute] }

end Istio

namespace Memory

end Memory

namespace HTTPRequest

/-- An HTTP response as the helper observes it: status code, status text,
and the outcome of reading the body (reading may itself fail). -/
structure Response where
  statusCode : Nat
  status : String
  body : Except String (List UInt8)

/-- Get sends an HTTP GET request and returns the result, embedding the Go
pair `([]byte, error)` as a pair of an optional byte list and an optional
error string. The network effect `http.Get` is passed in as an oracle from
URL to outcome. -/
def Get (url : String) (httpGet : String → Except String Response) :
    Option (List UInt8) × Option String :=
  match httpGet url with
  | Except.error e => (none, some e)
  | Except.ok resp =>
    if resp.statusCode ≠ 200 then
      (none, some ("failed to fetch URL " ++ url ++ " : " ++ resp.status))
    else
      match resp.body with
      | Except.error e => (none, some e)
      | Except.ok ret => (some ret, none)

/-- The success condition of a GET: the request succeeds, the status code
is 200, and the body reads fully. -/
def getSucceeds (url : String) (httpGet : String → Except String Response) : Prop :=
  ∃ resp ret, httpGet url = Except.ok resp ∧ resp.statusCode = 200 ∧
    resp.body = Except.ok ret

/-- The response of the constant witness oracle: status 200 with body
bytes 72 and 105. -/
def okResponse : Response :=
  { statusCode := 200, status := "200 OK", body := Except.ok [72, 105] }

/-- A constant oracle that always answers with `okResponse`. -/
def okOracle : String → Except String Response :=
  fun _ => Except.ok okResponse

end HTTPRequest

namespace Istio

/-- C1: for every call List(outputType, namespace) where outputType is not
one of the two supported synthetic kinds (mesh-native Gateway, mesh-native
VirtualService), List returns an empty sequence of config objects together
with a non-nil error (and, being a total function, does not panic). -/
theorem listConfigs_unsupported_kind (s : ConfigStore) (typ : GroupVersionKind)
    (ns : String) (h1 : typ ≠ gvkGateway) (h2 : typ ≠ gvkVirtualService) :
    (listConfigs s typ ns).1 = [] ∧ (listConfigs s typ ns).2.isSome = true := by
  unfold listConfigs
  rw [if_neg h1, if_neg h2]
  exact ⟨rfl, rfl⟩

/-- Witness for C1: the wrong-kind query of the test returns an empty list
and an error. -/
theorem listConfigs_unsupported_kind_witness :
    (listConfigs fixtureStore { group := "", version := "", kind := "wrong-kind" } "ns1").1 = [] ∧
    (listConfigs fixtureStore { group := "", version := "", kind := "wrong-kind" } "ns1").2.isSome = true :=
  listConfigs_unsupported_kind fixtureStore
    { group := "", version := "", kind := "wrong-kind" } "ns1" (by decide) (by decide)

/-- C2: on the single GatewayClass/Gateway/HTTPRoute fixture, List for the
mesh-native Gateway kind in namespace ns1 returns exactly one object named
after the source Gateway plus the fixed suffix, whose single Server has
port number 9009, the derived port name, the protocol copied verbatim,
wildcard hosts, and the fixed ingress selector, with no error. -/
theorem listConfigs_gateway_fixture :
    listConfigs fixtureStore gvkGateway "ns1" =
      ([{ gvk := gvkGateway,
          name := "gwspec-istio-autogenerated-k8s-gateway",
          namespaceName := "ns1",
          spec := ConfigSpec.gw
            { servers := [{ port := { number := 9009,
                                      name := "http-9009-gateway-gwspec-ns1",
                                      protocol := "HTTP" },
                            hosts := ["*"] }],
              selector := [("istio", "ingressgateway")] } }], none) := by
  decide

/-- C3: on the same fixture, List for the mesh-native VirtualService kind
in namespace ns1 returns exactly one object named after the source
HTTPRoute plus the fixed suffix, whose hosts are the source hostnames
verbatim, whose gateways reference the derived gateway name qualified by
namespace, and whose http rule list is empty, with no error. -/
theorem listConfigs_virtualservice_fixture :
    listConfigs fixtureStore gvkVirtualService "ns1" =
      ([{ gvk := gvkVirtualService,
          name := "http-route-istio-autogenerated-k8s-gateway",
          namespaceName := "ns1",
          spec := ConfigSpec.vs
            { hosts := ["test.cluster.local"],
              gateways := ["ns1/gwspec-istio-autogenerated-k8s-gateway"],
              http := [] } }], none) := by
  decide

/-- C4: against an unchanged store snapshot, a second List call performed
on the state left by a first List call returns the same result sequence
and error: the translation is a deterministic pure function of the
snapshot. -/
theorem listConfigs_idempotent (s : ConfigStore) (typ : GroupVersionKind)
    (ns : String) :
    (listConfigsState ((listConfigsState s typ ns).2) typ ns).1 =
      (listConfigsState s typ ns).1 := rfl

/-- C5: a Gateway whose class reference does not resolve to a
controller-owned GatewayClass contributes nothing — adding it to any store
leaves every List result unchanged, and List on the supported kinds still
returns no error. -/
theorem unresolved_gateway_contributes_nothing (s : ConfigStore) (g : GatewayObj)
    (typ : GroupVersionKind) (ns : String)
    (h : ∀ c ∈ s.gatewayClasses,
      c.controllerName = ControllerName → c.name ≠ g.gatewayClassName) :
    listConfigs (addGateway g s) typ ns = listConfigs s typ ns ∧
    (listConfigs (addGateway g s) gvkGateway ns).2 = none ∧
    (listConfigs (addGateway g s) gvkVirtualService ns).2 = none := by
  have hres : gatewayResolves s g = false := by
    rw [gatewayResolves, List.any_eq_false]
    intro c hc
    simp only [classOwned, Bool.and_eq_true, beq_iff_eq, not_and]
    intro h1 h2
    exact h c hc h1 h2
  have hgws : (addGateway g s).gateways = g :: s.gateways := rfl
  have hcls : gatewayResolves (addGateway g s) = gatewayResolves s := rfl
  have hret : retainedGateways (addGateway g s) ns = retainedGateways s ns := by
    simp only [retainedGateways, hgws, hcls, List.filter_cons, hres,
      Bool.and_false]
    simp
  refine ⟨?_, ?_, ?_⟩
  · unfold listConfigs synthesizedGateways synthesizedVirtualServices
    rw [hret]
    have hroutes : (addGateway g s).httpRoutes = s.httpRoutes := rfl
    rw [hroutes]
  · unfold listConfigs
    rw [if_pos rfl]
  · unfold listConfigs
    have hne : gvkVirtualService ≠ gvkGateway := by decide
    rw [if_neg hne, if_pos rfl]

/-- Witness for C5: adding the fixture Gateway to a store whose only
GatewayClass belongs to another controller changes no List result. -/
theorem unresolved_gateway_contributes_nothing_witness :
    listConfigs (addGateway fixtureGateway
      { gatewayClasses := [{ name := "gwclass", namespaceName := "ns1",
                             controllerName := "example.com/other" }],
        gateways := [], httpRoutes := [fixtureRoute] }) gvkGateway "ns1" =
      listConfigs
        { gatewayClasses := [{ name := "gwclass", namespaceName := "ns1",
                               controllerName := "example.com/other" }],
          gateways := [], httpRoutes := [fixtureRoute] } gvkGateway "ns1" ∧
    (listConfigs (addGateway fixtureGateway
      { gatewayClasses := [{ name := "gwclass", namespaceName := "ns1",
                             controllerName := "example.com/other" }],
        gateways := [], httpRoutes := [fixtureRoute] }) gvkGateway "ns1").2 = none ∧
    (listConfigs (addGateway fixtureGateway
      { gatewayClasses := [{ name := "gwclass", namespaceName := "ns1",
                             controllerName := "example.com/other" }],
        gateways := [], httpRoutes := [fixtureRoute] }) gvkVirtualService "ns1").2 = none :=
  unresolved_gateway_contributes_nothing
    { gatewayClasses := [{ name := "gwclass", namespaceName := "ns1",
                           controllerName := "example.com/other" }],
      gateways := [], httpRoutes := [fixtureRoute] }
    fixtureGateway gvkGateway "ns1" (by decide)

/-- C6: List is a pure read over the store — run as a state transformer it
returns the store unchanged for every input, including unsupported kinds. -/
theorem listConfigsState_pure (s : ConfigStore) (typ : GroupVersionKind)
    (ns : String) :
    (listConfigsState s typ ns).2 = s := rfl

/-- C7: the Gateway synthesizer emits exactly one Server per source
listener, in listener order: the server list has the same length as the
listener list and its entry at every index is the translation of the
listener at that index (hence no reordering and no deduplication). -/
theorem synthesizeGateway_servers_per_listener (g : GatewayObj) :
    (synthesizeGateway g).servers.length = g.listeners.length ∧
    ∀ i : Nat, (synthesizeGateway g).servers[i]? =
      (g.listeners[i]?).map (makeServer g) := by
  constructor
  · simp [synthesizeGateway]
  · intro i
    simp [synthesizeGateway, List.getElem?_map]

/-- C8: the Route synthesizer copies the source hostnames verbatim — when
the HTTPRoute declares no hostnames the synthesized hosts sequence is
empty, with no wildcard injected. -/
theorem synthesizeVirtualService_empty_hosts (bound : List GatewayObj)
    (r : HTTPRouteObj) (h : r.hostnames = []) :
    (synthesizeVirtualService bound r).hosts = [] ∧
    (synthesizeVirtualService bound r).hosts = r.hostnames := by
  exact ⟨by simp [synthesizeVirtualService, h], rfl⟩

/-- Witness for C8: a concrete route without hostnames yields a
VirtualService without hosts. -/
theorem synthesizeVirtualService_empty_hosts_witness :
    (synthesizeVirtualService [fixtureGateway]
      { name := "http-route", namespaceName := "ns1",
        attachment := RouteGateways.allowAll,
        hostnames := [], rules := [] }).hosts = [] ∧
    (synthesizeVirtualService [fixtureGateway]
      { name := "http-route", namespaceName := "ns1",
        attachment := RouteGateways.allowAll,
        hostnames := [], rules := [] }).hosts =
      ({ name := "http-route", namespaceName := "ns1",
         attachment := RouteGateways.allowAll,
         hostnames := [], rules := [] } : HTTPRouteObj).hostnames :=
  synthesizeVirtualService_empty_hosts [fixtureGateway]
    { name := "http-route", namespaceName := "ns1",
      attachment := RouteGateways.allowAll,
      hostnames := [], rules := [] } rfl

end Istio

namespace Memory

end Memory

namespace HTTPRequest

/-- C9: Get returns a nil byte slice and a non-nil error exactly when the
request fails, the status code is not 200, or reading the body fails; and
on a successful 200 response with a fully read body it returns the full
body with a nil error. -/
theorem Get_error_characterization (url : String)
    (f : String → Except String Response) :
    ((Get url f).1 = none ∧ (Get url f).2 ≠ none ↔ ¬ getSucceeds url f) ∧
    (∀ resp ret, f url = Except.ok resp → resp.statusCode = 200 →
      resp.body = Except.ok ret → Get url f = (some ret, none)) := by
  constructor
  · cases hf : f url with
    | error e =>
      simp [Get, hf, getSucceeds]
    | ok resp =>
      by_cases hc : resp.statusCode = 200
      · cases hb : resp.body with
        | error e =>
          simp [Get, hf, hc, hb, getSucceeds]
        | ok ret =>
          simp [Get, hf, hc, hb, getSucceeds]
      · simp [Get, hf, hc, getSucceeds]
  · intro resp ret h1 h2 h3
    simp [Get, h1, h2, h3]

/-- Witness for C9: the constant oracle answering 200 with body bytes 72
and 105 makes Get return exactly those bytes and no error, and the error
characterization holds for it. -/
theorem Get_error_characterization_witness :
    ((Get "http://x" okOracle).1 = none ∧ (Get "http://x" okOracle).2 ≠ none ↔
      ¬ getSucceeds "http://x" okOracle) ∧
    Get "http://x" okOracle = (some [72, 105], none) :=
  ⟨(Get_error_characterization "http://x" okOracle).1,
   (Get_error_characterization "http://x" okOracle).2 okResponse [72, 105]
     rfl rfl rfl⟩

end HTTPRequest
